import Mathlib

/-!
Verification of the session lifecycle engine and weather cache of the
digital-clock backend. The definitions below are a shallow embedding of
the Mongoose models (models/ClockSession.js, models/User.js,
models/WeatherCache.js) and the Express route handlers
(routes/pomodoro.js, routes/weather.js). Timestamps are integers
(milliseconds since epoch, as in JS Date arithmetic); durations are
integer seconds. The pomodoro pause, complete and stop routes persist
through Mongoose findOneAndUpdate, which executes no document save
middleware: the pre-save hook of the session schema runs only on the
save() call of the start route, where it is the identity (the new
document has no endTime). save() also runs the schema validators, so a
subType outside the schema enum makes the start route fail with 500 and
persist nothing.
-/

namespace DigitalClock

/-- The ClockSession `type` field: enum [pomodoro, break, focus]. `brk`
stands for the string "break" (a Lean keyword). -/
inductive SType
  | pomodoro
  | brk
  | focus
deriving DecidableEq

/-- One ClockSession document (the fields the engine touches). `endTime`
absent (none) means the session is active. -/
structure Session where
  type : SType
  subType : String
  startTime : Int
  endTime : Option Int
  plannedDuration : Int
  actualDuration : Option Int
  completed : Bool
  interrupted : Bool
  pausedTime : Int
  task : String
  notes : String
  ambientSound : String
  interruptionReason : Option String
  productivity : Option Int
deriving DecidableEq

/-- The user statistics subdocument (userSchema.stats). -/
structure UserStats where
  totalFocusTime : Int
  completedPomodoros : Int
  totalSessions : Int
  longestStreak : Int
  currentStreak : Int
  lastSessionDate : Option Int
deriving DecidableEq

/-- Schema defaults: every counter 0, no lastSessionDate. -/
def UserStats.init : UserStats :=
  { totalFocusTime := 0, completedPomodoros := 0, totalSessions := 0
    longestStreak := 0, currentStreak := 0, lastSessionDate := none }

/-- JS truthiness of an optional number: undefined and 0 are falsy. -/
def truthy : Option Int → Bool
  | none => false
  | some n => n != 0

/-- JS `x || d` on an optional string: undefined and the empty string
fall back to the default. -/
def jsOrDefault (o : Option String) (d : String) : String :=
  match o with
  | none => d
  | some s => if s = "" then d else s

/-- JS `p || null` on an optional number: 0 collapses to null. -/
def jsOrNull (p : Option Int) : Option Int :=
  match p with
  | some 0 => none
  | x => x

/-- The routes look up sessions with `type: { $in: [pomodoro, break,
focus] }`; the schema enum makes this filter total. -/
def typeInPomodoroFilter : SType → Bool
  | .pomodoro => true
  | .brk => true
  | .focus => true

/-- The active-session query of the pomodoro routes: `endTime: null` and
the type filter. -/
def isActive (s : Session) : Bool :=
  s.endTime.isNone && typeInPomodoroFilter s.type

/-- `ClockSession.findOne` on the active-session query: first matching
document of the store. -/
def findActive (store : List Session) : Option Session :=
  store.find? isActive

/-- The value the clockSessionSchema pre-save hook leaves in
`actualDuration`: when `endTime` is set and `actualDuration` is not yet
truthy, `Math.floor((endTime - startTime) / 1000) - pausedTime`. -/
def hookActualDuration (s : Session) : Option Int :=
  match s.endTime with
  | none => s.actualDuration
  | some e =>
    if truthy s.actualDuration then s.actualDuration
    else some (Int.fdiv (e - s.startTime) 1000 - s.pausedTime)

/-- The clockSessionSchema pre-save hook: it only (re)computes
`actualDuration`, every other field is untouched. It runs on save()
only — the routes that terminate a session persist via findOneAndUpdate,
which never executes it. -/
def applySaveHook (s : Session) : Session :=
  { s with actualDuration := hookActualDuration s }

/-- `ClockSession.findOneAndUpdate` on the active-session query with
`{new: true}`: update the first active document in place with `f`,
return the updated document and the new store. -/
def findOneAndUpdateActive (f : Session → Session) : List Session → Option Session × List Session
  | [] => (none, [])
  | s :: rest =>
    if isActive s then (some (f s), f s :: rest)
    else
      let r := findOneAndUpdateActive f rest
      (r.1, s :: r.2)

/-- Result of POST /pomodoro/start. validationFailed is the Mongoose
ValidationError path: session.save() rejects a subType outside the
schema enum and the route catch answers 500, persisting nothing. -/
inductive StartResult
  | invalidDuration
  | conflict
  | validationFailed
  | created (s : Session)
deriving DecidableEq

/-- HTTP status the start route answers with. -/
def StartResult.httpStatus : StartResult → Int
  | .invalidDuration => 400
  | .conflict => 409
  | .validationFailed => 500
  | .created _ => 201

/-- The clockSessionSchema subType enum. -/
def subTypeEnum : List String := ["work", "short_break", "long_break", "custom"]

/-- save() runs the schema validators: subType (set to the raw request
kind) must be one of the enum values. -/
def subTypeValid (reqType : String) : Bool := subTypeEnum.contains reqType

/-- The session document POST /pomodoro/start builds:
type is pomodoro when reqType is the string work and break otherwise,
subType = reqType,
defaults from the schema, task and ambientSound with JS fallbacks. -/
def newSession (now : Int) (reqType : String) (duration : Int)
    (task ambientSound : Option String) : Session :=
  { type := if reqType = "work" then .pomodoro else .brk
    subType := reqType
    startTime := now
    endTime := none
    plannedDuration := duration
    actualDuration := none
    completed := false
    interrupted := false
    pausedTime := 0
    task := jsOrDefault task ""
    notes := ""
    ambientSound := jsOrDefault ambientSound "none"
    interruptionReason := none
    productivity := none }

/-- POST /pomodoro/start: reject durations outside [60, 3600] with 400,
then reject an existing active session with 409, then save(): a subType
outside the schema enum raises ValidationError (500, nothing persisted);
otherwise the new document is stored. save() also runs the pre-save
hook, which is the identity here because the new document has no
endTime (applySaveHook_newSession). -/
def startRoute (store : List Session) (now : Int) (reqType : String)
    (duration : Int) (task ambientSound : Option String) : StartResult × List Session :=
  if duration < 60 ∨ duration > 3600 then (.invalidDuration, store)
  else
    match findActive store with
    | some _ => (.conflict, store)
    | none =>
      if subTypeValid reqType then
        (.created (newSession now reqType duration task ambientSound),
         store ++ [newSession now reqType duration task ambientSound])
      else (.validationFailed, store)

/-- Result of POST /pomodoro/pause. -/
inductive PauseResult
  | noActiveSession
  | paused (totalPausedTime : Int)
deriving DecidableEq

/-- HTTP status the pause route answers with. -/
def PauseResult.httpStatus : PauseResult → Int
  | .noActiveSession => 404
  | .paused _ => 200

/-- POST /pomodoro/pause: `$inc: { pausedTime: pausedTime }` on the
active session, answering with the cumulative `session.pausedTime`. -/
def pauseRoute (store : List Session) (pausedTime : Int) : PauseResult × List Session :=
  let upd := findOneAndUpdateActive (fun s => { s with pausedTime := s.pausedTime + pausedTime }) store
  match upd.1 with
  | none => (.noActiveSession, store)
  | some s => (.paused s.pausedTime, upd.2)

/-- Result of POST /pomodoro/complete. -/
inductive CompleteResult
  | noActiveSession
  | completedOk (s : Session)
deriving DecidableEq

/-- HTTP status the complete route answers with. -/
def CompleteResult.httpStatus : CompleteResult → Int
  | .noActiveSession => 404
  | .completedOk _ => 200

/-- Output of POST /pomodoro/complete: response, session store, user
stats. -/
structure CompleteOut where
  result : CompleteResult
  store : List Session
  stats : UserStats
deriving DecidableEq

/-- The update document of POST /pomodoro/complete (endTime = now,
completed = true, productivity, data.notes), applied by
findOneAndUpdate: no save middleware runs, so actualDuration is left
exactly as it was — the pre-save hook never computes it here. -/
def completePatch (now : Int) (productivity : Option Int) (notes : Option String)
    (s : Session) : Session :=
  { s with endTime := some now
           completed := true
           productivity := jsOrNull productivity
           notes := jsOrDefault notes "" }

/-- The `User.findByIdAndUpdate` of the complete route: runs only when
the session type is pomodoro AND session.actualDuration is JS-truthy,
incrementing completedPomodoros, totalFocusTime (by
`Math.floor(actualDuration / 60)`) and totalSessions, and setting
lastSessionDate to session.endTime. -/
def recordCompletionStats (stats : UserStats) (s : Session) : UserStats :=
  if (s.type == SType.pomodoro) && truthy s.actualDuration then
    { stats with
      completedPomodoros := stats.completedPomodoros + 1
      totalFocusTime := stats.totalFocusTime + Int.fdiv (s.actualDuration.getD 0) 60
      totalSessions := stats.totalSessions + 1
      lastSessionDate := s.endTime }
  else stats

/-- POST /pomodoro/complete. -/
def completeRoute (store : List Session) (stats : UserStats) (now : Int)
    (productivity : Option Int) (notes : Option String) : CompleteOut :=
  let upd := findOneAndUpdateActive (completePatch now productivity notes) store
  match upd.1 with
  | none => ⟨.noActiveSession, store, stats⟩
  | some s => ⟨.completedOk s, upd.2, recordCompletionStats stats s⟩

/-- Result of POST /pomodoro/stop. -/
inductive StopResult
  | noActiveSession
  | stopped (s : Session)
deriving DecidableEq

/-- HTTP status the stop route answers with. -/
def StopResult.httpStatus : StopResult → Int
  | .noActiveSession => 404
  | .stopped _ => 200

/-- The update document of POST /pomodoro/stop (endTime = now,
completed = false, interrupted = true, data.interruptionReason),
applied by findOneAndUpdate: no save middleware runs, so actualDuration
is left untouched here as well. -/
def stopPatch (now : Int) (reason : Option String) (s : Session) : Session :=
  { s with endTime := some now
           completed := false
           interrupted := true
           interruptionReason := some (reason.getD "user_cancelled") }

/-- POST /pomodoro/stop. The route never touches user statistics. -/
def stopRoute (store : List Session) (now : Int) (reason : Option String) :
    StopResult × List Session :=
  let upd := findOneAndUpdateActive (stopPatch now reason) store
  match upd.1 with
  | none => (.noActiveSession, store)
  | some s => (.stopped s, upd.2)

/-- Result of GET /pomodoro/current: both branches answer HTTP 200; with
no active session the body is `{ session: null }`, not an error. -/
inductive CurrentResult
  | noSession
  | activeSession (s : Session) (elapsed remaining : Int)
deriving DecidableEq

/-- HTTP status the current route answers with (res.json defaults to
200 in both branches). -/
def CurrentResult.httpStatus : CurrentResult → Int
  | .noSession => 200
  | .activeSession _ _ _ => 200

/-- GET /pomodoro/current: elapsed = Math.floor((now - startTime)/1000)
- pausedTime, remaining = Math.max(0, plannedDuration - elapsed). A pure
read: the store is not modified. -/
def currentRoute (store : List Session) (now : Int) : CurrentResult :=
  match findActive store with
  | none => .noSession
  | some s =>
    let elapsed := Int.fdiv (now - s.startTime) 1000 - s.pausedTime
    .activeSession s elapsed (max 0 (s.plannedDuration - elapsed))

/-- Number of active sessions in a store. -/
def countActive (store : List Session) : Nat :=
  (store.filter isActive).length

/-- Per-user engine state: the session documents and the user stats. -/
structure EngineState where
  store : List Session
  stats : UserStats
deriving DecidableEq

/-- Empty state: no sessions, default stats. -/
def EngineState.init : EngineState := ⟨[], UserStats.init⟩

/-- One client intent against the engine (the four mutating routes). -/
inductive Op
  | start (reqType : String) (duration : Int) (task ambientSound : Option String)
  | pause (delta : Int)
  | complete (productivity : Option Int) (notes : Option String)
  | stop (reason : Option String)
deriving DecidableEq

/-- Run one operation at wall-clock time `now`. -/
def step (st : EngineState) (now : Int) : Op → EngineState
  | .start rt d task amb => { st with store := (startRoute st.store now rt d task amb).2 }
  | .pause delta => { st with store := (pauseRoute st.store delta).2 }
  | .complete p n =>
    let out := completeRoute st.store st.stats now p n
    ⟨out.store, out.stats⟩
  | .stop r => { st with store := (stopRoute st.store now r).2 }

/-- Run a timed sequence of operations. -/
def runOps (st : EngineState) : List (Int × Op) → EngineState
  | [] => st
  | (t, op) :: rest => runOps (step st t op) rest

/-- The session flag invariant of the spec: completed and interrupted
are never both true, and are both false while the session is active. -/
def flagsOk (s : Session) : Prop :=
  (s.endTime = none → s.completed = false ∧ s.interrupted = false) ∧
  ¬(s.completed = true ∧ s.interrupted = true)

/-- The engine invariant: at most one active session, flags well formed,
pausedTime non-negative. -/
def EngineInv (st : EngineState) : Prop :=
  countActive st.store ≤ 1 ∧ ∀ s ∈ st.store, flagsOk s ∧ 0 ≤ s.pausedTime

/-- No stored session carries an actualDuration: true initially and
preserved by every route, because nothing in the program ever writes the
field (the only hook that would is bypassed by findOneAndUpdate). -/
def NoStoredActualDuration (st : EngineState) : Prop :=
  ∀ s ∈ st.store, s.actualDuration = none

/-- The processed weather snapshot stored in `current` (the fields the
cache claims need). -/
structure WeatherSnapshot where
  temperature : Int
  humidity : Int
  conditionMain : String
deriving DecidableEq

/-- One WeatherCache document. Coordinates are the parseFloat values of
the route parameters, modelled exactly in micro-degrees (integer
multiples of 10^-6 degree): the claims only compare coordinate values
for equality, which this representation preserves. -/
structure WeatherCacheEntry where
  lat : Int
  lon : Int
  city : String
  country : String
  current : WeatherSnapshot
  cachedAt : Int
  expiresAt : Int
deriving DecidableEq

/-- weatherCacheSchema default: expiresAt = cachedAt + 10 minutes, in
milliseconds. -/
def weatherTtlMs : Int := 10 * 60 * 1000

/-- Outcome of the axios call to the weather provider. -/
inductive FetchOutcome
  | ok (snapshot : WeatherSnapshot) (city country : String)
  | networkErr
  | authErr
  | otherErr
deriving DecidableEq

/-- Result of GET /weather/current/:lat/:lon. -/
inductive WeatherResult
  | hit (weather : WeatherSnapshot)
  | fetched (weather : WeatherSnapshot)
  | notConfigured
  | providerUnavailable
  | providerMisconfigured
  | providerError
deriving DecidableEq

/-- HTTP status the weather route answers with: 200 on both cache hit
and fresh fetch, 503 for a missing key, network failure (ENOTFOUND /
ECONNREFUSED) and provider 401, 500 otherwise. -/
def WeatherResult.httpStatus : WeatherResult → Int
  | .hit _ => 200
  | .fetched _ => 200
  | .notConfigured => 503
  | .providerUnavailable => 503
  | .providerMisconfigured => 503
  | .providerError => 500

/-- The WeatherCache.findOne cacheKey: exact coordinate match and
`expiresAt: { $gt: now }`. No rounding is applied to the coordinates. -/
def cacheFresh (now : Int) (lat lon : Int) (e : WeatherCacheEntry) : Bool :=
  e.lat == lat && e.lon == lon && now < e.expiresAt

/-- GET /weather/current/:lat/:lon: serve a fresh cache entry as a hit;
otherwise fetch, classify failures, and on success save a new cache
document (an insert: the store grows, prior documents stay). -/
def getCurrentWeather (store : List WeatherCacheEntry) (now : Int) (lat lon : Int)
    (hasApiKey : Bool) (fetch : Int → Int → FetchOutcome) :
    WeatherResult × List WeatherCacheEntry :=
  match store.find? (cacheFresh now lat lon) with
  | some e => (.hit e.current, store)
  | none =>
    if !hasApiKey then (.notConfigured, store)
    else
      match fetch lat lon with
      | .ok snap city country =>
        (.fetched snap,
         store ++ [{ lat := lat, lon := lon, city := city, country := country
                     current := snap, cachedAt := now, expiresAt := now + weatherTtlMs }])
      | .networkErr => (.providerUnavailable, store)
      | .authErr => (.providerMisconfigured, store)
      | .otherErr => (.providerError, store)

/-- Modelled from the spec: the key-derivation policy of the spec rounds
latitude and longitude to 2 decimal places before forming the location
key. On the micro-degree representation this maps a coordinate to the
nearest multiple of 0.01 degree (10000 micro-degrees). The route code
performs no such rounding (it looks up the exact parsed values); this
definition exists only to compare the spec policy with the code. -/
def specRound2 (micro : Int) : Int :=
  Int.fdiv (micro + 5000) 10000

theorem typeInPomodoroFilter_eq_true (t : SType) : typeInPomodoroFilter t = true := by
  cases t <;> rfl

theorem isActive_iff {s : Session} : isActive s = true ↔ s.endTime = none := by
  simp [isActive, typeInPomodoroFilter_eq_true]

theorem findActive_nil : findActive [] = none := rfl

theorem findActive_cons (s : Session) (rest : List Session) :
    findActive (s :: rest) = if isActive s then some s else findActive rest := by
  simp only [findActive, List.find?]
  cases h : isActive s <;> simp [h]

theorem findActive_eq_none_iff {store : List Session} :
    findActive store = none ↔ ∀ s ∈ store, isActive s = false := by
  simp [findActive, List.find?_eq_none]

theorem findOneAndUpdateActive_fst (f : Session → Session) (store : List Session) :
    (findOneAndUpdateActive f store).1 = (findActive store).map f := by
  induction store with
  | nil => rfl
  | cons s rest ih =>
    rw [findActive_cons]
    by_cases h : isActive s
    · simp [findOneAndUpdateActive, h]
    · simp [findOneAndUpdateActive, h, ih]

theorem findOneAndUpdateActive_snd_of_none (f : Session → Session) (store : List Session)
    (h : findActive store = none) :
    (findOneAndUpdateActive f store).2 = store := by
  induction store with
  | nil => rfl
  | cons s rest ih =>
    rw [findActive_cons] at h
    by_cases ha : isActive s
    · simp [ha] at h
    · simp [ha] at h
      simp [findOneAndUpdateActive, ha, ih h]

theorem findOneAndUpdateActive_snd_of_some (f : Session → Session) (store : List Session)
    (s : Session) (h : findActive store = some s) :
    f s ∈ (findOneAndUpdateActive f store).2 := by
  induction store with
  | nil => simp [findActive] at h
  | cons a rest ih =>
    rw [findActive_cons] at h
    by_cases ha : isActive a
    · simp [ha] at h
      subst h
      simp [findOneAndUpdateActive, ha]
    · simp [ha] at h
      simp [findOneAndUpdateActive, ha, ih h]

theorem findOneAndUpdateActive_mem (f : Session → Session) (store : List Session) :
    ∀ s2 ∈ (findOneAndUpdateActive f store).2,
      s2 ∈ store ∨ ∃ s ∈ store, isActive s = true ∧ s2 = f s := by
  induction store with
  | nil => simp [findOneAndUpdateActive]
  | cons s rest ih =>
    intro s2 h2
    by_cases ha : isActive s
    · simp only [findOneAndUpdateActive, if_pos ha, List.mem_cons] at h2
      rcases h2 with h2 | h2
      · exact Or.inr ⟨s, by simp, ha, h2⟩
      · exact Or.inl (by simp [h2])
    · simp only [findOneAndUpdateActive, if_neg ha, List.mem_cons] at h2
      rcases h2 with h2 | h2
      · exact Or.inl (by simp [h2])
      · rcases ih s2 h2 with h | ⟨s3, hs3, hact, heq⟩
        · exact Or.inl (by simp [h])
        · exact Or.inr ⟨s3, by simp [hs3], hact, heq⟩

theorem findOneAndUpdateActive_length (f : Session → Session) (store : List Session) :
    (findOneAndUpdateActive f store).2.length = store.length := by
  induction store with
  | nil => rfl
  | cons s rest ih =>
    by_cases ha : isActive s <;> simp [findOneAndUpdateActive, ha, ih]

theorem findOneAndUpdateActive_get? (f : Session → Session) (store : List Session)
    (i : Nat) :
    (findOneAndUpdateActive f store).2.get? i = store.get? i ∨
    ∃ s, store.get? i = some s ∧ (findOneAndUpdateActive f store).2.get? i = some (f s) ∧
      isActive s = true := by
  induction store generalizing i with
  | nil => left; rfl
  | cons s rest ih =>
    by_cases ha : isActive s
    · have h2 : (findOneAndUpdateActive f (s :: rest)).2 = f s :: rest := by
        simp [findOneAndUpdateActive, ha]
      cases i with
      | zero => right; exact ⟨s, rfl, by simp [h2], ha⟩
      | succ j => left; simp [h2]
    · have h2 : (findOneAndUpdateActive f (s :: rest)).2 =
          s :: (findOneAndUpdateActive f rest).2 := by
        simp [findOneAndUpdateActive, ha]
      cases i with
      | zero => left; simp [h2]
      | succ j =>
        rcases ih j with h | ⟨s3, hs3, hupd, hact⟩
        · left; simpa [h2] using h
        · right; exact ⟨s3, by simpa using hs3, by simpa [h2] using hupd, hact⟩

theorem countActive_nil : countActive [] = 0 := rfl

theorem countActive_cons_active {s : Session} (rest : List Session) (ha : isActive s = true) :
    countActive (s :: rest) = countActive rest + 1 := by
  simp [countActive, List.filter_cons, ha]

theorem countActive_cons_inactive {s : Session} (rest : List Session) (ha : isActive s = false) :
    countActive (s :: rest) = countActive rest := by
  simp [countActive, List.filter_cons, ha]

theorem countActive_append (l1 l2 : List Session) :
    countActive (l1 ++ l2) = countActive l1 + countActive l2 := by
  simp [countActive, List.filter_append]

theorem countActive_eq_zero_iff {store : List Session} :
    countActive store = 0 ↔ findActive store = none := by
  simp [countActive, List.length_eq_zero, List.filter_eq_nil_iff, findActive, List.find?_eq_none]

theorem countActive_update_le (f : Session → Session) (store : List Session) :
    countActive (findOneAndUpdateActive f store).2 ≤ countActive store := by
  induction store with
  | nil => simp [findOneAndUpdateActive, countActive_nil]
  | cons s rest ih =>
    by_cases ha : isActive s
    · have h2 : (findOneAndUpdateActive f (s :: rest)).2 = f s :: rest := by
        simp [findOneAndUpdateActive, ha]
      rw [h2, countActive_cons_active rest ha]
      by_cases hfa : isActive (f s)
      · rw [countActive_cons_active rest hfa]
      · rw [countActive_cons_inactive rest (by simpa using hfa)]
        omega
    · have h2 : (findOneAndUpdateActive f (s :: rest)).2 =
          s :: (findOneAndUpdateActive f rest).2 := by
        simp [findOneAndUpdateActive, ha]
      rw [h2, countActive_cons_inactive _ (by simpa using ha),
        countActive_cons_inactive _ (by simpa using ha)]
      exact ih

theorem countActive_update_deactivate (f : Session → Session) (store : List Session)
    (s : Session) (hf : ∀ x : Session, isActive (f x) = false) (h : findActive store = some s) :
    countActive (findOneAndUpdateActive f store).2 + 1 = countActive store := by
  induction store with
  | nil => simp [findActive] at h
  | cons a rest ih =>
    rw [findActive_cons] at h
    by_cases ha : isActive a
    · have h2 : (findOneAndUpdateActive f (a :: rest)).2 = f a :: rest := by
        simp [findOneAndUpdateActive, ha]
      rw [h2, countActive_cons_inactive rest (hf a), countActive_cons_active rest ha]
    · simp [ha] at h
      have h2 : (findOneAndUpdateActive f (a :: rest)).2 =
          a :: (findOneAndUpdateActive f rest).2 := by
        simp [findOneAndUpdateActive, ha]
      rw [h2, countActive_cons_inactive _ (by simpa using ha),
        countActive_cons_inactive _ (by simpa using ha)]
      exact ih h

theorem startRoute_invalid (store : List Session) (now : Int) (rt : String) (d : Int)
    (task amb : Option String) (hd : d < 60 ∨ d > 3600) :
    startRoute store now rt d task amb = (.invalidDuration, store) := by
  simp [startRoute, hd]

theorem startRoute_invalid_iff (store : List Session) (now : Int) (rt : String) (d : Int)
    (task amb : Option String) :
    (startRoute store now rt d task amb).1 = .invalidDuration ↔ (d < 60 ∨ d > 3600) := by
  unfold startRoute
  by_cases hd : d < 60 ∨ d > 3600
  · simp [hd]
  · cases hfa : findActive store <;> by_cases hv : subTypeValid rt <;> simp [hd, hfa, hv]

theorem startRoute_conflict (store : List Session) (now : Int) (rt : String) (d : Int)
    (task amb : Option String) (hd : ¬(d < 60 ∨ d > 3600)) (s : Session)
    (hs : findActive store = some s) :
    startRoute store now rt d task amb = (.conflict, store) := by
  simp [startRoute, hd, hs]

theorem startRoute_created (store : List Session) (now : Int) (rt : String) (d : Int)
    (task amb : Option String) (hd : ¬(d < 60 ∨ d > 3600))
    (hn : findActive store = none) (hv : subTypeValid rt = true) :
    startRoute store now rt d task amb =
      (.created (newSession now rt d task amb), store ++ [newSession now rt d task amb]) := by
  simp [startRoute, hd, hn, hv]

theorem startRoute_validation (store : List Session) (now : Int) (rt : String) (d : Int)
    (task amb : Option String) (hd : ¬(d < 60 ∨ d > 3600))
    (hn : findActive store = none) (hv : subTypeValid rt = false) :
    startRoute store now rt d task amb = (.validationFailed, store) := by
  simp [startRoute, hd, hn, hv]

/-- The pre-save hook run by save() in the start route is the identity
on the new document, whose endTime is absent. -/
theorem applySaveHook_newSession (now : Int) (rt : String) (d : Int)
    (task amb : Option String) :
    applySaveHook (newSession now rt d task amb) = newSession now rt d task amb := rfl

theorem pauseRoute_none (store : List Session) (delta : Int)
    (hn : findActive store = none) :
    pauseRoute store delta = (.noActiveSession, store) := by
  simp only [pauseRoute, findOneAndUpdateActive_fst, hn, Option.map_none']

theorem pauseRoute_some (store : List Session) (delta : Int) (s : Session)
    (hs : findActive store = some s) :
    pauseRoute store delta =
      (.paused (s.pausedTime + delta),
       (findOneAndUpdateActive (fun x => { x with pausedTime := x.pausedTime + delta }) store).2) := by
  simp only [pauseRoute, findOneAndUpdateActive_fst, hs, Option.map_some']

theorem completeRoute_none (store : List Session) (stats : UserStats) (now : Int)
    (p : Option Int) (n : Option String) (hn : findActive store = none) :
    completeRoute store stats now p n = ⟨.noActiveSession, store, stats⟩ := by
  simp only [completeRoute, findOneAndUpdateActive_fst, hn, Option.map_none']

theorem completeRoute_some (store : List Session) (stats : UserStats) (now : Int)
    (p : Option Int) (n : Option String) (s : Session) (hs : findActive store = some s) :
    completeRoute store stats now p n =
      ⟨.completedOk (completePatch now p n s),
       (findOneAndUpdateActive (completePatch now p n) store).2,
       recordCompletionStats stats (completePatch now p n s)⟩ := by
  simp only [completeRoute, findOneAndUpdateActive_fst, hs, Option.map_some']

theorem stopRoute_none (store : List Session) (now : Int) (reason : Option String)
    (hn : findActive store = none) :
    stopRoute store now reason = (.noActiveSession, store) := by
  simp only [stopRoute, findOneAndUpdateActive_fst, hn, Option.map_none']

theorem stopRoute_some (store : List Session) (now : Int) (reason : Option String)
    (s : Session) (hs : findActive store = some s) :
    stopRoute store now reason =
      (.stopped (stopPatch now reason s),
       (findOneAndUpdateActive (stopPatch now reason) store).2) := by
  simp only [stopRoute, findOneAndUpdateActive_fst, hs, Option.map_some']

theorem completePatch_actualDuration (now : Int) (p : Option Int) (n : Option String)
    (s : Session) : (completePatch now p n s).actualDuration = s.actualDuration := rfl

theorem isActive_completePatch (now : Int) (p : Option Int) (n : Option String)
    (s : Session) : isActive (completePatch now p n s) = false := rfl

theorem stopPatch_actualDuration (now : Int) (reason : Option String)
    (s : Session) : (stopPatch now reason s).actualDuration = s.actualDuration := rfl

theorem isActive_stopPatch (now : Int) (reason : Option String) (s : Session) :
    isActive (stopPatch now reason s) = false := rfl

theorem isActive_newSession (now : Int) (rt : String) (d : Int)
    (task amb : Option String) : isActive (newSession now rt d task amb) = true := by
  rw [isActive_iff]
  rfl

theorem flagsOk_newSession (now : Int) (rt : String) (d : Int)
    (task amb : Option String) : flagsOk (newSession now rt d task amb) := by
  constructor
  · intro _; exact ⟨rfl, rfl⟩
  · intro hb
    exact Bool.false_ne_true hb.1

theorem engineInv_init : EngineInv EngineState.init := by
  constructor
  · exact Nat.zero_le 1
  · intro s hs
    simp [EngineState.init] at hs

theorem step_preserves_inv (st : EngineState) (t : Int) (op : Op)
    (hdelta : ∀ d : Int, op = Op.pause d → 0 ≤ d) (h : EngineInv st) :
    EngineInv (step st t op) := by
  obtain ⟨hc, hm⟩ := h
  cases op with
  | start rt d task amb =>
    by_cases hd : d < 60 ∨ d > 3600
    · have he : step st t (.start rt d task amb) = st := by
        simp [step, startRoute_invalid _ _ _ _ _ _ hd]
      rw [he]; exact ⟨hc, hm⟩
    · cases hfa : findActive st.store with
      | some s =>
        have he : step st t (.start rt d task amb) = st := by
          simp [step, startRoute_conflict _ _ _ _ _ _ hd s hfa]
        rw [he]; exact ⟨hc, hm⟩
      | none =>
        by_cases hv : subTypeValid rt = true
        · have hst : (step st t (.start rt d task amb)).store =
              st.store ++ [newSession t rt d task amb] := by
            simp [step, startRoute_created _ _ _ _ _ _ hd hfa hv]
          constructor
          · rw [hst, countActive_append]
            have h0 : countActive st.store = 0 := countActive_eq_zero_iff.mpr hfa
            have h1 : countActive [newSession t rt d task amb] = 1 := by
              simp [countActive, List.filter, isActive_newSession]
            omega
          · rw [hst]; intro s2 hs2
            rcases List.mem_append.mp hs2 with hin | hin
            · exact hm s2 hin
            · have he2 : s2 = newSession t rt d task amb := by simpa using hin
              subst he2
              exact ⟨flagsOk_newSession _ _ _ _ _, le_refl 0⟩
        · have he : step st t (.start rt d task amb) = st := by
            simp [step, startRoute_validation _ _ _ _ _ _ hd hfa (by simpa using hv)]
          rw [he]; exact ⟨hc, hm⟩
  | pause delta =>
    have hd : 0 ≤ delta := hdelta delta rfl
    cases hfa : findActive st.store with
    | none =>
      have he : step st t (.pause delta) = st := by
        simp [step, pauseRoute_none _ _ hfa]
      rw [he]; exact ⟨hc, hm⟩
    | some s =>
      have hst : (step st t (.pause delta)).store =
          (findOneAndUpdateActive (fun x => { x with pausedTime := x.pausedTime + delta }) st.store).2 := by
        simp [step, pauseRoute_some _ _ s hfa]
      constructor
      · rw [hst]; exact le_trans (countActive_update_le _ _) hc
      · rw [hst]; intro s2 hs2
        rcases findOneAndUpdateActive_mem _ _ s2 hs2 with hin | ⟨s3, hs3, _, heq⟩
        · exact hm s2 hin
        · subst heq
          obtain ⟨hf3, hp3⟩ := hm s3 hs3
          exact ⟨hf3, add_nonneg hp3 hd⟩
  | complete p n =>
    cases hfa : findActive st.store with
    | none =>
      have he : step st t (.complete p n) = st := by
        simp [step, completeRoute_none _ _ _ _ _ hfa]
      rw [he]; exact ⟨hc, hm⟩
    | some s =>
      have hst : (step st t (.complete p n)).store =
          (findOneAndUpdateActive (completePatch t p n) st.store).2 := by
        simp [step, completeRoute_some _ _ _ _ _ s hfa]
      constructor
      · rw [hst]; exact le_trans (countActive_update_le _ _) hc
      · rw [hst]; intro s2 hs2
        rcases findOneAndUpdateActive_mem _ _ s2 hs2 with hin | ⟨s3, hs3, hact, heq⟩
        · exact hm s2 hin
        · subst heq
          obtain ⟨hf3, hp3⟩ := hm s3 hs3
          have hend : s3.endTime = none := isActive_iff.mp hact
          have hint : s3.interrupted = false := (hf3.1 hend).2
          refine ⟨⟨?_, ?_⟩, hp3⟩
          · intro habs
            exact Option.noConfusion habs
          · intro habs
            have hi3 : s3.interrupted = true := habs.2
            rw [hint] at hi3
            exact Bool.false_ne_true hi3
  | stop r =>
    cases hfa : findActive st.store with
    | none =>
      have he : step st t (.stop r) = st := by
        simp [step, stopRoute_none _ _ _ hfa]
      rw [he]; exact ⟨hc, hm⟩
    | some s =>
      have hst : (step st t (.stop r)).store =
          (findOneAndUpdateActive (stopPatch t r) st.store).2 := by
        simp [step, stopRoute_some _ _ _ s hfa]
      constructor
      · rw [hst]; exact le_trans (countActive_update_le _ _) hc
      · rw [hst]; intro s2 hs2
        rcases findOneAndUpdateActive_mem _ _ s2 hs2 with hin | ⟨s3, hs3, _, heq⟩
        · exact hm s2 hin
        · subst heq
          obtain ⟨_, hp3⟩ := hm s3 hs3
          refine ⟨⟨?_, ?_⟩, hp3⟩
          · intro habs
            exact Option.noConfusion habs
          · intro habs
            have hc3 : (false : Bool) = true := habs.1
            exact Bool.false_ne_true hc3

theorem runOps_preserves_inv (ops : List (Int × Op)) :
    ∀ st : EngineState, (∀ q ∈ ops, ∀ d : Int, q.2 = Op.pause d → 0 ≤ d) →
      EngineInv st → EngineInv (runOps st ops) := by
  induction ops with
  | nil => intro st _ h; exact h
  | cons q rest ih =>
    intro st hdelta h
    obtain ⟨t, op⟩ := q
    exact ih (step st t op) (fun q2 hq2 => hdelta q2 (List.mem_cons_of_mem _ hq2))
      (step_preserves_inv st t op (fun d hd => hdelta (t, op) (List.mem_cons_self _ _) d hd) h)

theorem update_pausedTime_mono (f : Session → Session)
    (hf : ∀ x : Session, x.pausedTime ≤ (f x).pausedTime) (store : List Session)
    (i : Nat) (s s2 : Session) (h1 : store.get? i = some s)
    (h2 : (findOneAndUpdateActive f store).2.get? i = some s2) :
    s.pausedTime ≤ s2.pausedTime := by
  rcases findOneAndUpdateActive_get? f store i with heq | ⟨s3, hs3, hupd, _⟩
  · rw [heq, h1] at h2
    cases Option.some.inj h2
    exact le_refl _
  · rw [h1] at hs3
    cases Option.some.inj hs3
    rw [hupd] at h2
    cases Option.some.inj h2
    exact hf s

theorem step_pausedTime_mono (st : EngineState) (t : Int) (op : Op)
    (hdelta : ∀ d : Int, op = Op.pause d → 0 ≤ d) (i : Nat) (s s2 : Session)
    (h1 : st.store.get? i = some s) (h2 : (step st t op).store.get? i = some s2) :
    s.pausedTime ≤ s2.pausedTime := by
  have same : (step st t op).store = st.store →
      s.pausedTime ≤ s2.pausedTime := by
    intro he
    rw [he, h1] at h2
    cases Option.some.inj h2
    exact le_refl _
  cases op with
  | start rt d task amb =>
    by_cases hd : d < 60 ∨ d > 3600
    · exact same (by simp [step, startRoute_invalid _ _ _ _ _ _ hd])
    · cases hfa : findActive st.store with
      | some s3 => exact same (by simp [step, startRoute_conflict _ _ _ _ _ _ hd s3 hfa])
      | none =>
        by_cases hv : subTypeValid rt = true
        · have hst : (step st t (.start rt d task amb)).store =
              st.store ++ [newSession t rt d task amb] := by
            simp [step, startRoute_created _ _ _ _ _ _ hd hfa hv]
          rw [hst] at h2
          obtain ⟨hlt, _⟩ := List.get?_eq_some.mp h1
          rw [List.get?_append hlt, h1] at h2
          cases Option.some.inj h2
          exact le_refl _
        · exact same (by simp [step, startRoute_validation _ _ _ _ _ _ hd hfa (by simpa using hv)])
  | pause delta =>
    have hd : 0 ≤ delta := hdelta delta rfl
    cases hfa : findActive st.store with
    | none => exact same (by simp [step, pauseRoute_none _ _ hfa])
    | some s3 =>
      have hst : (step st t (.pause delta)).store =
          (findOneAndUpdateActive (fun x => { x with pausedTime := x.pausedTime + delta }) st.store).2 := by
        simp [step, pauseRoute_some _ _ s3 hfa]
      rw [hst] at h2
      exact update_pausedTime_mono _ (fun x => le_add_of_nonneg_right hd) _ i s s2 h1 h2
  | complete p n =>
    cases hfa : findActive st.store with
    | none => exact same (by simp [step, completeRoute_none _ _ _ _ _ hfa])
    | some s3 =>
      have hst : (step st t (.complete p n)).store =
          (findOneAndUpdateActive (completePatch t p n) st.store).2 := by
        simp [step, completeRoute_some _ _ _ _ _ s3 hfa]
      rw [hst] at h2
      exact update_pausedTime_mono (completePatch t p n) (fun x => le_refl x.pausedTime) _ i s s2 h1 h2
  | stop r =>
    cases hfa : findActive st.store with
    | none => exact same (by simp [step, stopRoute_none _ _ _ hfa])
    | some s3 =>
      have hst : (step st t (.stop r)).store =
          (findOneAndUpdateActive (stopPatch t r) st.store).2 := by
        simp [step, stopRoute_some _ _ _ s3 hfa]
      rw [hst] at h2
      exact update_pausedTime_mono (stopPatch t r) (fun x => le_refl x.pausedTime) _ i s s2 h1 h2

/-- A concrete active work session: started at t = 0 ms, planned 1500 s,
with 100 s of accumulated pause time. -/
def pausedWorkSession : Session :=
  { newSession 0 "work" 1500 none none with pausedTime := 100 }

theorem update_preserves_noActualDuration (f : Session → Session)
    (hf : ∀ x : Session, (f x).actualDuration = x.actualDuration) (store : List Session)
    (h : ∀ s ∈ store, s.actualDuration = none) :
    ∀ s2 ∈ (findOneAndUpdateActive f store).2, s2.actualDuration = none := by
  intro s2 hs2
  rcases findOneAndUpdateActive_mem f store s2 hs2 with hin | ⟨s3, hs3, _, heq⟩
  · exact h s2 hin
  · rw [heq, hf s3]
    exact h s3 hs3

theorem recordCompletionStats_of_none (stats : UserStats) (s : Session)
    (h : s.actualDuration = none) : recordCompletionStats stats s = stats := by
  simp [recordCompletionStats, truthy, h]

theorem step_preserves_noActualDuration (st : EngineState) (t : Int) (op : Op)
    (h : NoStoredActualDuration st) : NoStoredActualDuration (step st t op) := by
  cases op with
  | start rt d task amb =>
    by_cases hd : d < 60 ∨ d > 3600
    · have he : step st t (.start rt d task amb) = st := by
        simp [step, startRoute_invalid _ _ _ _ _ _ hd]
      rw [he]; exact h
    · cases hfa : findActive st.store with
      | some s =>
        have he : step st t (.start rt d task amb) = st := by
          simp [step, startRoute_conflict _ _ _ _ _ _ hd s hfa]
        rw [he]; exact h
      | none =>
        by_cases hv : subTypeValid rt = true
        · have hst : (step st t (.start rt d task amb)).store =
              st.store ++ [newSession t rt d task amb] := by
            simp [step, startRoute_created _ _ _ _ _ _ hd hfa hv]
          intro s2 hs2
          rw [hst] at hs2
          rcases List.mem_append.mp hs2 with hin | hin
          · exact h s2 hin
          · have he2 : s2 = newSession t rt d task amb := by simpa using hin
            rw [he2]
            rfl
        · have he : step st t (.start rt d task amb) = st := by
            simp [step, startRoute_validation _ _ _ _ _ _ hd hfa (by simpa using hv)]
          rw [he]; exact h
  | pause delta =>
    cases hfa : findActive st.store with
    | none =>
      have he : step st t (.pause delta) = st := by
        simp [step, pauseRoute_none _ _ hfa]
      rw [he]; exact h
    | some s =>
      have hst : (step st t (.pause delta)).store =
          (findOneAndUpdateActive (fun x => { x with pausedTime := x.pausedTime + delta }) st.store).2 := by
        simp [step, pauseRoute_some _ _ s hfa]
      intro s2 hs2
      rw [hst] at hs2
      exact update_preserves_noActualDuration
        (fun x => { x with pausedTime := x.pausedTime + delta }) (fun x => rfl) st.store h s2 hs2
  | complete p n =>
    cases hfa : findActive st.store with
    | none =>
      have he : step st t (.complete p n) = st := by
        simp [step, completeRoute_none _ _ _ _ _ hfa]
      rw [he]; exact h
    | some s =>
      have hst : (step st t (.complete p n)).store =
          (findOneAndUpdateActive (completePatch t p n) st.store).2 := by
        simp [step, completeRoute_some _ _ _ _ _ s hfa]
      intro s2 hs2
      rw [hst] at hs2
      exact update_preserves_noActualDuration (completePatch t p n) (fun x => rfl) st.store h s2 hs2
  | stop r =>
    cases hfa : findActive st.store with
    | none =>
      have he : step st t (.stop r) = st := by
        simp [step, stopRoute_none _ _ _ hfa]
      rw [he]; exact h
    | some s =>
      have hst : (step st t (.stop r)).store =
          (findOneAndUpdateActive (stopPatch t r) st.store).2 := by
        simp [step, stopRoute_some _ _ _ s hfa]
      intro s2 hs2
      rw [hst] at hs2
      exact update_preserves_noActualDuration (stopPatch t r) (fun x => rfl) st.store h s2 hs2

theorem runOps_preserves_noActualDuration (ops : List (Int × Op)) :
    ∀ st : EngineState, NoStoredActualDuration st →
      NoStoredActualDuration (runOps st ops) := by
  induction ops with
  | nil => intro st h; exact h
  | cons q rest ih =>
    intro st h
    obtain ⟨t, op⟩ := q
    exact ih (step st t op) (step_preserves_noActualDuration st t op h)

theorem step_stats_unchanged (st : EngineState) (t : Int) (op : Op)
    (h : NoStoredActualDuration st) : (step st t op).stats = st.stats := by
  cases op with
  | start rt d task amb => rfl
  | pause delta => rfl
  | stop r => rfl
  | complete p n =>
    cases hfa : findActive st.store with
    | none => simp [step, completeRoute_none st.store st.stats t p n hfa]
    | some s =>
      have hmem : s ∈ st.store := List.mem_of_find?_eq_some hfa
      have hAD : (completePatch t p n s).actualDuration = none := h s hmem
      simp [step, completeRoute_some st.store st.stats t p n s hfa,
        recordCompletionStats_of_none st.stats _ hAD]

theorem runOps_stats_unchanged (ops : List (Int × Op)) :
    ∀ st : EngineState, NoStoredActualDuration st → (runOps st ops).stats = st.stats := by
  induction ops with
  | nil => intro st _; rfl
  | cons q rest ih =>
    intro st h
    obtain ⟨t, op⟩ := q
    have h2 := ih (step st t op) (step_preserves_noActualDuration st t op h)
    exact h2.trans (step_stats_unchanged st t op h)

/-- C4 (amended): start fails with InvalidDuration (HTTP 400) exactly
when the requested duration lies outside 60–3600 seconds (59 and 3601
fail, 60 and 3600 succeed); for an in-range duration it fails with
Conflict (HTTP 409) when the user already has an active session;
otherwise, when the kind is one of the schema subType enum values work,
short_break, long_break or custom, it creates and persists a new active
session with pausedSeconds = 0 — but any other kind (the spec enum names
custom_focus, which is NOT in the schema enum) makes save() raise a
ValidationError: the route answers 500 and persists nothing. -/
theorem C4_start_validation (store : List Session) (now : Int) (rt : String) (d : Int)
    (task amb : Option String) :
    ((startRoute store now rt d task amb).1 = .invalidDuration ↔ (d < 60 ∨ d > 3600)) ∧
    (60 ≤ d → d ≤ 3600 → ∀ s, findActive store = some s →
      startRoute store now rt d task amb = (.conflict, store)) ∧
    (60 ≤ d → d ≤ 3600 → findActive store = none → subTypeValid rt = true →
      startRoute store now rt d task amb =
        (.created (newSession now rt d task amb), store ++ [newSession now rt d task amb]) ∧
      (newSession now rt d task amb).pausedTime = 0 ∧
      (newSession now rt d task amb).endTime = none) ∧
    (60 ≤ d → d ≤ 3600 → findActive store = none → subTypeValid rt = false →
      startRoute store now rt d task amb = (.validationFailed, store) ∧
      StartResult.httpStatus .validationFailed = 500) ∧
    (startRoute [] 0 "work" 59 none none).1.httpStatus = 400 ∧
    (startRoute [] 0 "work" 3601 none none).1.httpStatus = 400 ∧
    (startRoute [] 0 "work" 60 none none).1.httpStatus = 201 ∧
    (startRoute [] 0 "work" 3600 none none).1.httpStatus = 201 := by
  refine ⟨startRoute_invalid_iff _ _ _ _ _ _, ?_, ?_, ?_,
    by decide, by decide, by decide, by decide⟩
  · intro h60 h36 s hs
    exact startRoute_conflict _ _ _ _ _ _ (by omega) s hs
  · intro h60 h36 hn hv
    exact ⟨startRoute_created _ _ _ _ _ _ (by omega) hn hv, rfl, rfl⟩
  · intro h60 h36 hn hv
    exact ⟨startRoute_validation _ _ _ _ _ _ (by omega) hn hv, rfl⟩

/-- Witness for C4: with an active session a duration of 100 s is a
Conflict; on the empty store a duration of 60 s with kind work creates
the session; and kind custom_focus on the empty store fails validation
with 500 and persists nothing. -/
theorem C4_start_validation_witness :
    startRoute [newSession 0 "work" 1500 none none] 5 "work" 100 none none =
      (.conflict, [newSession 0 "work" 1500 none none]) ∧
    startRoute [] 0 "work" 60 none none =
      (.created (newSession 0 "work" 60 none none), [newSession 0 "work" 60 none none]) ∧
    startRoute [] 0 "custom_focus" 1500 none none = (.validationFailed, []) := by
  refine ⟨?_, ?_, ?_⟩
  · exact (C4_start_validation [newSession 0 "work" 1500 none none] 5 "work" 100 none none).2.1
      (by norm_num) (by norm_num) (newSession 0 "work" 1500 none none) (by decide)
  · exact ((C4_start_validation [] 0 "work" 60 none none).2.2.1
      (by norm_num) (by norm_num) rfl (by decide)).1
  · exact ((C4_start_validation [] 0 "custom_focus" 1500 none none).2.2.2.1
      (by norm_num) (by norm_num) rfl (by decide)).1

/-- C4 counterexample: kind custom_focus (a kind of the spec enum) with
the valid duration 1500 s on the empty store does NOT create a session:
subType custom_focus fails the schema enum at save(), the route answers
500 and the store is unchanged — refuting the claim that every in-range,
conflict-free start creates and persists a session. -/
theorem C4_start_counterexample :
    startRoute [] 0 "custom_focus" 1500 none none = (.validationFailed, []) ∧
    StartResult.httpStatus .validationFailed = 500 ∧
    subTypeValid "custom_focus" = false ∧
    (startRoute [] 0 "custom_focus" 1500 none none).2.length = 0 := by decide

/-- C6: pause fails with NoActiveSession (HTTP 404) when the user has no
active session; otherwise it adds the reported delta to pausedSeconds,
persists the updated session, and answers with the cumulative paused time;
pausing twice with deltas 10 and 15 yields pausedSeconds = 25. -/
theorem C6_pause_accumulates (store : List Session) (delta : Int) :
    (findActive store = none → pauseRoute store delta = (.noActiveSession, store)) ∧
    (∀ s, findActive store = some s → 0 ≤ delta →
      (pauseRoute store delta).1 = .paused (s.pausedTime + delta) ∧
      { s with pausedTime := s.pausedTime + delta } ∈ (pauseRoute store delta).2) ∧
    (pauseRoute (pauseRoute [newSession 0 "work" 1500 none none] 10).2 15).1 = .paused 25 := by
  refine ⟨pauseRoute_none store delta, ?_, by decide⟩
  intro s hs _
  rw [pauseRoute_some store delta s hs]
  exact ⟨rfl, findOneAndUpdateActive_snd_of_some _ store s hs⟩

/-- Witness for C6: pausing the fresh work session by 10 s answers the
cumulative total 10 and stores pausedSeconds = 10. -/
theorem C6_pause_accumulates_witness :
    (pauseRoute [newSession 0 "work" 1500 none none] 10).1 = .paused 10 ∧
    { newSession 0 "work" 1500 none none with pausedTime := 10 } ∈
      (pauseRoute [newSession 0 "work" 1500 none none] 10).2 := by
  have h := (C6_pause_accumulates [newSession 0 "work" 1500 none none] 10).2.1
    (newSession 0 "work" 1500 none none) (by decide) (by norm_num)
  exact h

/-- C2 (amended): complete fails with NoActiveSession (HTTP 404) when no
active session exists; otherwise it sets endedAt = now and
completed = true, records productivity and notes, and persists the
session — but it does NOT compute or store actualSeconds: the route
persists via findOneAndUpdate, which runs no save middleware, so the
pre-save hook that would compute
floor((endTime − startTime) / 1000) − pausedTime never executes and the
stored actualDuration is left exactly as it was — which is absent for
every session the engine ever stores. In particular the claimed
1500 s / pausedSeconds 100 example yields no actualSeconds = 1400. -/
theorem C2_complete_actualSeconds (store : List Session) (stats : UserStats) (now : Int)
    (p : Option Int) (n : Option String) :
    (findActive store = none →
      completeRoute store stats now p n = ⟨.noActiveSession, store, stats⟩) ∧
    (∀ s, findActive store = some s →
      (completeRoute store stats now p n).result = .completedOk (completePatch now p n s) ∧
      (completePatch now p n s).endTime = some now ∧
      (completePatch now p n s).completed = true ∧
      (completePatch now p n s).actualDuration = s.actualDuration ∧
      completePatch now p n s ∈ (completeRoute store stats now p n).store) ∧
    (∀ ops : List (Int × Op),
      ∀ s2 ∈ (runOps EngineState.init ops).store, s2.actualDuration = none) := by
  refine ⟨completeRoute_none store stats now p n, ?_,
    fun ops => runOps_preserves_noActualDuration ops EngineState.init
      (by intro s2 hs2; simp [EngineState.init] at hs2)⟩
  intro s hs
  have hr := completeRoute_some store stats now p n s hs
  refine ⟨by rw [hr], rfl, rfl, rfl, ?_⟩
  rw [hr]
  exact findOneAndUpdateActive_snd_of_some _ store s hs

/-- Witness for C2: completing 1500 s after startedAt with
pausedSeconds = 100 sets endedAt = now and completed = true, and the
stored actualDuration stays absent. -/
theorem C2_complete_actualSeconds_witness :
    (completeRoute [pausedWorkSession] UserStats.init 1500000 none none).result =
      .completedOk (completePatch 1500000 none none pausedWorkSession) ∧
    (completePatch 1500000 none none pausedWorkSession).endTime = some 1500000 ∧
    (completePatch 1500000 none none pausedWorkSession).completed = true ∧
    (completePatch 1500000 none none pausedWorkSession).actualDuration = none := by
  have h := (C2_complete_actualSeconds [pausedWorkSession] UserStats.init 1500000 none none).2.1
    pausedWorkSession (by decide)
  exact ⟨h.1, h.2.1, h.2.2.1, (h.2.2.2.1).trans rfl⟩

/-- C2 counterexample: completing 1500 s after startedAt with
pausedSeconds = 100 stores NO actualSeconds at all — the terminated
session still has actualDuration absent, not the claimed 1400: the
pre-save hook that computes it never runs on a findOneAndUpdate. -/
theorem C2_complete_counterexample :
    (completeRoute [pausedWorkSession] UserStats.init 1500000 none none).result =
      .completedOk (completePatch 1500000 none none pausedWorkSession) ∧
    (completePatch 1500000 none none pausedWorkSession).actualDuration = none ∧
    (none : Option Int) ≠ some 1400 := by decide

/-- C3 (amended): current with no active session answers HTTP 200 with a
null session (not a NoActiveSession failure, which the mutating routes
signal with 404); with an active session it answers a read-only projection
(currentRoute is a pure function of the store) with
elapsed = floor((now − startedAt) / 1000) − pausedSeconds, not clamped to
≥ 0, and remaining = max(0, plannedSeconds − elapsed). -/
theorem C3_current_projection (store : List Session) (now : Int) :
    (findActive store = none →
      currentRoute store now = .noSession ∧
      (currentRoute store now).httpStatus = 200) ∧
    (∀ s, findActive store = some s →
      currentRoute store now =
        .activeSession s (Int.fdiv (now - s.startTime) 1000 - s.pausedTime)
          (max 0 (s.plannedDuration - (Int.fdiv (now - s.startTime) 1000 - s.pausedTime)))) := by
  constructor
  · intro hn
    unfold currentRoute
    rw [hn]
    exact ⟨rfl, rfl⟩
  · intro s hs
    unfold currentRoute
    rw [hs]

/-- Witness for C3: at the instant of the C2 example (1500 s elapsed,
pausedSeconds = 100, plannedSeconds = 1500) the projection is
elapsed = 1400 and remaining = 100. -/
theorem C3_current_projection_witness :
    currentRoute [pausedWorkSession] 1500000 = .activeSession pausedWorkSession 1400 100 := by
  have h := (C3_current_projection [pausedWorkSession] 1500000).2 pausedWorkSession (by decide)
  rw [h]
  decide

/-- C3 counterexample: with no active session the current route answers
200 with a null session rather than the 404 NoActiveSession failure used
by the other routes, and with pausedSeconds = 100 at 50 s of wall clock
the projection has elapsed = −50: no clamping to ≥ 0 happens. -/
theorem C3_current_counterexample :
    currentRoute [] 0 = .noSession ∧
    (currentRoute [] 0).httpStatus = 200 ∧
    PauseResult.httpStatus .noActiveSession = 404 ∧
    currentRoute [pausedWorkSession] 50000 = .activeSession pausedWorkSession (-50) 1550 ∧
    ¬(0 : Int) ≤ -50 := by decide

/-- C5: stop on an active session sets endedAt = now, interrupted = true
and completed = false, leaves startedAt, plannedSeconds, pausedSeconds,
kind (type and subType) and task unchanged (only the interruption-reason
payload is written), never touches the user statistics, and a stop issued
after a complete on the store whose only active session was just completed
fails with NoActiveSession. -/
theorem C5_stop_behavior (store : List Session) (stats : UserStats) (now now2 : Int)
    (reason r2 : Option String) (p : Option Int) (n : Option String) :
    (findActive store = none → stopRoute store now reason = (.noActiveSession, store)) ∧
    (∀ s, findActive store = some s →
      (stopRoute store now reason).1 = .stopped (stopPatch now reason s) ∧
      (stopPatch now reason s).endTime = some now ∧
      (stopPatch now reason s).interrupted = true ∧
      (stopPatch now reason s).completed = false ∧
      (stopPatch now reason s).startTime = s.startTime ∧
      (stopPatch now reason s).plannedDuration = s.plannedDuration ∧
      (stopPatch now reason s).pausedTime = s.pausedTime ∧
      (stopPatch now reason s).type = s.type ∧
      (stopPatch now reason s).subType = s.subType ∧
      (stopPatch now reason s).task = s.task) ∧
    (∀ st : EngineState, (step st now (Op.stop reason)).stats = st.stats) ∧
    (countActive store ≤ 1 → ∀ s, findActive store = some s →
      (stopRoute (completeRoute store stats now p n).store now2 r2).1 = .noActiveSession) := by
  refine ⟨stopRoute_none store now reason, ?_, fun st => rfl, ?_⟩
  · intro s hs
    rw [stopRoute_some store now reason s hs]
    exact ⟨rfl, rfl, rfl, rfl, rfl, rfl, rfl, rfl, rfl, rfl⟩
  · intro hc s hs
    have hstore : (completeRoute store stats now p n).store =
        (findOneAndUpdateActive (completePatch now p n) store).2 := by
      rw [completeRoute_some store stats now p n s hs]
    have hdeact := countActive_update_deactivate (completePatch now p n) store s
      (fun x => isActive_completePatch now p n x) hs
    have h0 : countActive (findOneAndUpdateActive (completePatch now p n) store).2 = 0 := by
      omega
    have hnone : findActive (findOneAndUpdateActive (completePatch now p n) store).2 = none :=
      countActive_eq_zero_iff.mp h0
    rw [hstore, stopRoute_none _ _ _ hnone]

/-- Witness for C5: stopping the fresh work session marks it interrupted,
and stopping right after completing it fails with NoActiveSession. -/
theorem C5_stop_behavior_witness :
    (stopRoute [newSession 0 "work" 1500 none none] 5000 none).1 =
      .stopped (stopPatch 5000 none (newSession 0 "work" 1500 none none)) ∧
    (stopRoute (completeRoute [newSession 0 "work" 1500 none none]
        UserStats.init 5000 none none).store 6000 none).1 = .noActiveSession := by
  have h := C5_stop_behavior [newSession 0 "work" 1500 none none] UserStats.init
    5000 6000 none none none none
  exact ⟨(h.2.1 (newSession 0 "work" 1500 none none) (by decide)).1,
    h.2.2.2 (by decide) (newSession 0 "work" 1500 none none) (by decide)⟩

/-- C7: the statistics update of the complete route never executes in
the program: its guard tests the session type AND the JS truthiness of
session.actualDuration on the document returned by findOneAndUpdate, and
that field is never set (the pre-save hook that would compute it runs
only on save). Completing an active work session (startedAt = 0,
pausedSeconds = 100) 1500 s later terminates it as a completed pomodoro,
yet the user statistics stay exactly at their defaults — where the claim
(and the update block the route plainly intends to run) would have
completedPomodoros incremented, floor(1400 / 60) = 23 minutes added and
lastSessionDate set. -/
theorem C7_stats_never_update :
    (completeRoute [pausedWorkSession] UserStats.init 1500000 none none).result =
      .completedOk (completePatch 1500000 none none pausedWorkSession) ∧
    (completePatch 1500000 none none pausedWorkSession).type = SType.pomodoro ∧
    (completePatch 1500000 none none pausedWorkSession).completed = true ∧
    (completePatch 1500000 none none pausedWorkSession).endTime = some 1500000 ∧
    (completePatch 1500000 none none pausedWorkSession).actualDuration = none ∧
    (completeRoute [pausedWorkSession] UserStats.init 1500000 none none).stats =
      UserStats.init ∧
    UserStats.init.completedPomodoros = 0 := by decide

/-- C8 (amended): no engine operation ever modifies the user statistics
— the stats block of the complete route never fires (its actualDuration
guard is never truthy) and no streak-updating code exists anywhere — so
currentStreak and longestStreak are never updated and remain at their
schema default 0 after every operation sequence from the empty state. -/
theorem C8_streaks_never_change (ops : List (Int × Op)) :
    (runOps EngineState.init ops).stats = UserStats.init ∧
    (runOps EngineState.init ops).stats.currentStreak = 0 ∧
    (runOps EngineState.init ops).stats.longestStreak = 0 := by
  have h := runOps_stats_unchanged ops EngineState.init
    (by intro s hs; simp [EngineState.init] at hs)
  exact ⟨h, by rw [h]; rfl, by rw [h]; rfl⟩

/-- The operation sequence of the C8 counterexample: a work session
completed on calendar day 0 and another completed on calendar day 1. -/
def c8ops : List (Int × Op) :=
  [(0, .start "work" 1500 none none), (1500000, .complete none none),
   (86400000, .start "work" 1500 none none), (87900000, .complete none none)]

/-- C8 counterexample: two work sessions are completed on consecutive
calendar days (their endTime values fall on days 0 and 1), yet
currentStreak stays 0 and longestStreak stays 0 — in fact the whole
statistics record is untouched — refuting the claimed per-completion
streak increments. -/
theorem C8_streaks_counterexample :
    (runOps EngineState.init c8ops).store.map Session.completed = [true, true] ∧
    (runOps EngineState.init c8ops).store.map Session.endTime =
      [some 1500000, some 87900000] ∧
    Int.fdiv 87900000 86400000 = Int.fdiv 1500000 86400000 + 1 ∧
    (runOps EngineState.init c8ops).stats = UserStats.init ∧
    UserStats.init.currentStreak = 0 ∧
    UserStats.init.longestStreak = 0 := by decide

/-- C1 (amended): over every timed operation sequence from the empty
store whose pause deltas are non-negative, at most one session is active
(endTime absent) at any time, completed and interrupted are never both
true and are both false while a session is active, and pausedSeconds is a
non-negative accumulator that no further operation ever decreases. (The
original claim that pausedSeconds never exceeds the elapsed wall-clock
time since startedAt is refuted by the counterexample: the pause delta is
caller-reported and unvalidated.) -/
theorem C1_engine_invariants (ops : List (Int × Op))
    (hdelta : ∀ q ∈ ops, ∀ d : Int, q.2 = Op.pause d → 0 ≤ d) :
    EngineInv (runOps EngineState.init ops) ∧
    (∀ t : Int, ∀ op : Op, (∀ d : Int, op = Op.pause d → 0 ≤ d) →
      ∀ i : Nat, ∀ s s2 : Session,
        (runOps EngineState.init ops).store.get? i = some s →
        (step (runOps EngineState.init ops) t op).store.get? i = some s2 →
        s.pausedTime ≤ s2.pausedTime) := by
  refine ⟨runOps_preserves_inv ops EngineState.init hdelta engineInv_init, ?_⟩
  intro t op hop i s s2 h1 h2
  exact step_pausedTime_mono (runOps EngineState.init ops) t op hop i s s2 h1 h2

/-- Witness for C1: after a start, the invariant holds, and a pause of
25 s does not decrease the stored pausedSeconds (0 ≤ 25). -/
theorem C1_engine_invariants_witness :
    EngineInv (runOps EngineState.init [(0, Op.start "work" 1500 none none)]) ∧
    (newSession 0 "work" 1500 none none).pausedTime ≤
      ({ newSession 0 "work" 1500 none none with pausedTime := 25 } : Session).pausedTime := by
  have h := C1_engine_invariants [(0, Op.start "work" 1500 none none)] ?hd
  case hd =>
    intro q hq d hd
    rcases List.mem_singleton.mp hq with h1
    rw [h1] at hd
    exact Op.noConfusion hd
  refine ⟨h.1, ?_⟩
  exact h.2 2000 (Op.pause 25) (fun d hd => by injection hd with h25; omega) 0
    (newSession 0 "work" 1500 none none)
    { newSession 0 "work" 1500 none none with pausedTime := 25 }
    (by decide) (by decide)

/-- The operation sequence of the C1 counterexample: start at t = 0 ms,
then pause reporting 100 s at t = 1000 ms. -/
def c1ops : List (Int × Op) :=
  [(0, .start "work" 1500 none none), (1000, .pause 100)]

/-- C1 counterexample: one second after its start the active session
carries pausedSeconds = 100 while only 1 s of wall clock has elapsed
since startedAt — pausedSeconds exceeds the elapsed time even though the
pause delta was non-negative, refuting that part of the claim. -/
theorem C1_engine_counterexample :
    (runOps EngineState.init c1ops).store = [pausedWorkSession] ∧
    pausedWorkSession.endTime = none ∧
    Int.fdiv (1000 - pausedWorkSession.startTime) 1000 = 1 ∧
    pausedWorkSession.pausedTime = 100 ∧
    ¬(100 : Int) ≤ 1 := by decide

/-- C9 helper: freshness is antitone in time — an entry fresh at a later
instant was fresh earlier. -/
theorem cacheFresh_mono (now now2 : Int) (lat lon : Int) (e : WeatherCacheEntry)
    (h12 : now ≤ now2) (h : cacheFresh now2 lat lon e = true) :
    cacheFresh now lat lon e = true := by
  simp only [cacheFresh, Bool.and_eq_true, decide_eq_true_eq, beq_iff_eq] at h ⊢
  exact ⟨⟨h.1.1, h.1.2⟩, lt_of_le_of_lt h12 h.2⟩

theorem find?_append_of_none {α : Type} (p : α → Bool) (l1 l2 : List α)
    (h : l1.find? p = none) : (l1 ++ l2).find? p = l2.find? p := by
  induction l1 with
  | nil => rfl
  | cons a rest ih =>
    by_cases hp : p a = true
    · rw [List.find?_cons_of_pos _ hp] at h
      exact Option.noConfusion h
    · have hp2 : p a = false := by simpa using hp
      rw [List.find?_cons_of_neg _ (by simp [hp2])] at h
      rw [List.cons_append, List.find?_cons_of_neg _ (by simp [hp2])]
      exact ih h

theorem find?_singleton_of_pos {α : Type} (p : α → Bool) (a : α) (h : p a = true) :
    [a].find? p = some a :=
  List.find?_cons_of_pos _ h

/-- The hit path of the weather route: a fresh entry found by the cache
key is answered as a hit with its stored snapshot and nothing is
written. -/
theorem getCurrentWeather_hit (store : List WeatherCacheEntry) (now lat lon : Int)
    (key : Bool) (fetch : Int → Int → FetchOutcome) (e : WeatherCacheEntry)
    (hfind : store.find? (cacheFresh now lat lon) = some e) :
    getCurrentWeather store now lat lon key fetch = (.hit e.current, store) := by
  simp [getCurrentWeather, hfind]

/-- C9 (amended): a cache entry for the exact coordinates with
expiresAt > now is served as a hit with the identical stored snapshot,
independently of the fetcher (which is not consulted); on a miss the
fetcher result is classified — success persists ONE new entry with
cachedAt = now and expiresAt = now + ttl (ttl = 10 minutes) alongside any
prior (necessarily stale) entry for the key, which is left for TTL
eviction rather than replaced, and is answered cacheHit = false; network
failure maps to ProviderUnavailable, auth failure (401) to
ProviderMisconfigured, anything else to ProviderError, and no failure
ever writes a cache entry. -/
theorem C9_weather_cache (store : List WeatherCacheEntry) (now : Int) (lat lon : Int)
    (fetch : Int → Int → FetchOutcome) :
    weatherTtlMs = 600000 ∧
    (∀ e, store.find? (cacheFresh now lat lon) = some e →
      ∀ fetch2 : Int → Int → FetchOutcome,
        getCurrentWeather store now lat lon true fetch2 = (.hit e.current, store)) ∧
    (store.find? (cacheFresh now lat lon) = none →
      (∀ snap city country, fetch lat lon = .ok snap city country →
        getCurrentWeather store now lat lon true fetch =
          (.fetched snap,
           store ++ [{ lat := lat, lon := lon, city := city, country := country
                       current := snap, cachedAt := now, expiresAt := now + weatherTtlMs }])) ∧
      (fetch lat lon = .networkErr →
        getCurrentWeather store now lat lon true fetch = (.providerUnavailable, store)) ∧
      (fetch lat lon = .authErr →
        getCurrentWeather store now lat lon true fetch = (.providerMisconfigured, store)) ∧
      (fetch lat lon = .otherErr →
        getCurrentWeather store now lat lon true fetch = (.providerError, store))) := by
  refine ⟨rfl, ?_, ?_⟩
  · intro e he fetch2
    simp [getCurrentWeather, he]
  · intro hn
    refine ⟨?_, ?_, ?_, ?_⟩
    · intro snap city country hf
      simp [getCurrentWeather, hn, hf]
    · intro hf
      simp [getCurrentWeather, hn, hf]
    · intro hf
      simp [getCurrentWeather, hn, hf]
    · intro hf
      simp [getCurrentWeather, hn, hf]

/-- A concrete weather snapshot for the cache examples. -/
def snapA : WeatherSnapshot :=
  { temperature := 21, humidity := 40, conditionMain := "Clear" }

/-- Witness for C9: a miss on the empty store fetches and persists the
snapshot with cachedAt = 0 and expiresAt = 600000 (10 minutes); the
coordinates are 48.85 N, 2.35 E in micro-degrees. -/
theorem C9_weather_cache_witness :
    getCurrentWeather [] 0 48850000 2350000 true (fun _ _ => .ok snapA "Paris" "FR") =
      (.fetched snapA,
       [{ lat := 48850000, lon := 2350000, city := "Paris", country := "FR"
          current := snapA, cachedAt := 0, expiresAt := 600000 }]) := by
  have h := ((C9_weather_cache [] 0 48850000 2350000
    (fun _ _ => .ok snapA "Paris" "FR")).2.2 rfl).1 snapA "Paris" "FR" rfl
  rw [h]
  decide

/-- The stale cache entry of the C9 counterexample: cached at t = 0, its
expiry 600000 has passed at lookup time t = 600000. -/
def c9expired : WeatherCacheEntry :=
  { lat := 48850000, lon := 2350000, city := "Paris", country := "FR"
    current := { temperature := 3, humidity := 80, conditionMain := "Rain" }
    cachedAt := 0, expiresAt := 600000 }

/-- C9 counterexample: refetching after expiry does NOT replace the prior
entry for the key — the store grows from 1 to 2 documents and the expired
entry is still present (only the Mongo TTL index would remove it later),
refuting the claimed wholesale replacement by getCurrent. -/
theorem C9_weather_counterexample :
    (getCurrentWeather [c9expired] 600000 48850000 2350000 true
        (fun _ _ => .ok snapA "Paris" "FR")).1 = .fetched snapA ∧
    (getCurrentWeather [c9expired] 600000 48850000 2350000 true
        (fun _ _ => .ok snapA "Paris" "FR")).2.length = 2 ∧
    c9expired ∈ (getCurrentWeather [c9expired] 600000 48850000 2350000 true
        (fun _ _ => .ok snapA "Paris" "FR")).2 := by decide

/-- C10 (amended): the cache key is the EXACT pair of parsed coordinates
— no rounding is applied — so only a repeat lookup with identical
coordinate values within the ttl window shares the entry: after a miss
and successful fetch at (lat, lon), any later getCurrent at the same
(lat, lon) before expiry is a hit with the fetched snapshot and performs
no further fetch or write. Coordinate pairs that merely round to the same
2-decimal value do not share an entry (see the counterexample). -/
theorem C10_exact_key_cache_sharing (store : List WeatherCacheEntry) (now now2 : Int)
    (lat lon : Int) (fetch fetch2 : Int → Int → FetchOutcome)
    (snap : WeatherSnapshot) (city country : String)
    (hmiss : store.find? (cacheFresh now lat lon) = none)
    (hfetch : fetch lat lon = .ok snap city country)
    (h12 : now ≤ now2) (hexp : now2 < now + weatherTtlMs) :
    getCurrentWeather (getCurrentWeather store now lat lon true fetch).2 now2 lat lon true fetch2 =
      (.hit snap, (getCurrentWeather store now lat lon true fetch).2) := by
  have hfirst : (getCurrentWeather store now lat lon true fetch).2 =
      store ++ [{ lat := lat, lon := lon, city := city, country := country
                  current := snap, cachedAt := now, expiresAt := now + weatherTtlMs }] := by
    simp [getCurrentWeather, hmiss, hfetch]
  have hnone2 : store.find? (cacheFresh now2 lat lon) = none := by
    rw [List.find?_eq_none] at hmiss ⊢
    intro e he hp
    exact hmiss e he (cacheFresh_mono now now2 lat lon e h12 hp)
  have happ : ∀ e : WeatherCacheEntry, e.lat = lat → e.lon = lon →
      e.expiresAt = now + weatherTtlMs →
      (store ++ [e]).find? (cacheFresh now2 lat lon) = some e := by
    intro e h1 h2 h3
    rw [find?_append_of_none _ _ _ hnone2]
    refine find?_singleton_of_pos _ _ ?_
    simp [cacheFresh, h1, h2, h3, hexp]
  rw [hfirst]
  refine getCurrentWeather_hit _ _ _ _ _ _ _ (happ _ rfl rfl rfl)

/-- Witness for C10: the second lookup at the identical coordinates
1 s after the first is a hit with the same snapshot even with a failing
fetcher, and writes nothing. -/
theorem C10_exact_key_cache_sharing_witness :
    getCurrentWeather
        (getCurrentWeather [] 0 48850000 2350000 true (fun _ _ => .ok snapA "Paris" "FR")).2
        1000 48850000 2350000 true (fun _ _ => .networkErr) =
      (.hit snapA,
       (getCurrentWeather [] 0 48850000 2350000 true (fun _ _ => .ok snapA "Paris" "FR")).2) :=
  C10_exact_key_cache_sharing [] 0 1000 48850000 2350000
    (fun _ _ => .ok snapA "Paris" "FR") (fun _ _ => .networkErr)
    snapA "Paris" "FR" rfl rfl (by norm_num) (by decide)

/-- C10 counterexample: 40.123 and 40.124 round to the same 2-decimal
value 40.12, but the route keys the cache on the exact parsed
coordinates, so a second lookup with the slightly different coordinate
within the ttl window is NOT a hit: it fetches upstream again
(cacheHit = false), refuting the claimed rounding-based sharing. -/
theorem C10_rounding_counterexample :
    specRound2 40123000 = specRound2 40124000 ∧
    (40123000 : Int) ≠ 40124000 ∧
    (getCurrentWeather
        (getCurrentWeather [] 0 40123000 70000 true
          (fun _ _ => .ok snapA "Paris" "FR")).2
        1000 40124000 70000 true (fun _ _ => .ok snapA "Paris" "FR")).1 =
      .fetched snapA := by
  refine ⟨by decide, by decide, by decide⟩

end DigitalClock
